import Mathlib

/-!
Verification development for the record-normalization pipeline of
`src/Code.py` (a Streamlit maintenance-work-order dashboard).

The embedding models the `load_data` function of `src/Code.py`:
  * `pd.read_csv(file_path, usecols=columns_to_load, dtype=...)` — modelled by
    requiring every name in `columns_to_load` to occur (exactly, as pandas
    `usecols` matches header strings exactly) among the raw table's headers;
    a missing required column raises `ValueError` (modelled as
    `LoadError.missingColumns`, carrying the missing column names, as the
    pandas message does).
  * column rename — reflected in the field names of `CanonRow`.
  * `pd.to_datetime(..., format=dd/mm/YYYY, errors=coerce)` — `parseDate`.
  * `df.dropna(subset=[Fecha_Planificada])` — rows whose planned date does
    not parse are removed (`mkCanonRow` returns `none`, `filterMap` drops).
  * `Año`/`Mes` derivation and `clean_tipo_trabajo` categorization.
  * the `try/except` wrapper returning an empty `DataFrame` on any failure —
    `load_data` below, a total function returning `[]` on the error paths.

Cell values are `Option String` (`none` models a pandas `NaN` cell).
-/

/-- Substring containment on strings: `strContains hay needle` is `true` iff
`needle` occurs contiguously in `hay` (the Python `needle in hay` test). -/
def strContains (hay needle : String) : Bool :=
  (List.range (hay.toList.length + 1)).any
    (fun i => ((hay.toList.drop i).take needle.toList.length) == needle.toList)

/-- Character-wise uppercasing (Python `str.upper` on the ASCII data at
hand). Implemented by structural recursion over the character list so that
it evaluates inside the kernel. -/
def strUpper (s : String) : String :=
  String.mk (s.toList.map Char.toUpper)

/-- Python `str(tipo).upper()` applied to a cell: a missing (`NaN`) cell
stringifies to `"nan"` before uppercasing, exactly as
`str(float(nan)).upper()` does in `clean_tipo_trabajo` of `src/Code.py`. -/
def tipo_upper (tipo : Option String) : String :=
  strUpper (match tipo with
            | some s => s
            | none => "nan")

/-- Embedding of `clean_tipo_trabajo` (src/Code.py lines 70-79): ordered
case-insensitive substring rules COR/PRV/SIN/INS, fallback `"Otro"`. -/
def clean_tipo_trabajo (tipo : Option String) : String :=
  let u := tipo_upper tipo
  if strContains u "COR" then "Correctivo"
  else if strContains u "PRV" then "Preventivo"
  else if strContains u "SIN" then "Siniestro"
  else if strContains u "INS" then "Inspeccion"
  else "Otro"

/-- Calendar date (year, month, day). -/
structure HDate where
  year : Nat
  month : Nat
  day : Nat
deriving DecidableEq, Repr

def isLeapYear (y : Nat) : Bool :=
  (y % 4 == 0 && y % 100 != 0) || (y % 400 == 0)

def daysInMonth (y m : Nat) : Nat :=
  if m == 2 then (if isLeapYear y then 29 else 28)
  else if m == 4 || m == 6 || m == 9 || m == 11 then 30
  else 31

/-- Splitting a character list at every occurrence of a separator character
(the behavior of Python `split` / `String.splitOn` for a one-character
separator), by structural recursion. -/
def splitOnChar (sep : Char) : List Char → List (List Char)
  | [] => [[]]
  | c :: cs =>
    if c == sep then
      [] :: splitOnChar sep cs
    else
      match splitOnChar sep cs with
      | [] => [[c]]
      | g :: gs => (c :: g) :: gs

/-- Numeric value of a list of decimal digit characters. -/
def digitsToNat (l : List Char) : Nat :=
  l.foldl (fun n c => n * 10 + (c.toNat - 48)) 0

/-- Embedding of `pd.to_datetime(s, format=%d/%m/%Y, errors=coerce)` on one
cell string: day and month are 1-2 digits, year exactly 4 digits, separated by
`/`, the whole string consumed, and the calendar date must be valid (day
within the month's length); any failure yields `none` (pandas `NaT`). -/
def parseDate (s : String) : Option HDate :=
  match splitOnChar '/' s.toList with
  | [ds, ms, ys] =>
    if 1 ≤ ds.length && ds.length ≤ 2
        && 1 ≤ ms.length && ms.length ≤ 2
        && ys.length == 4
        && ds.all Char.isDigit && ms.all Char.isDigit && ys.all Char.isDigit then
      let d := digitsToNat ds
      let m := digitsToNat ms
      let y := digitsToNat ys
      if 1 ≤ m && m ≤ 12 && 1 ≤ d && d ≤ daysInMonth y m then
        some ⟨y, m, d⟩
      else none
    else none
  | _ => none

/-- One raw CSV record: an association list from header name to cell value;
`none` models an empty cell (pandas `NaN`). -/
def RawRow : Type := List (String × Option String)

/-- Cell lookup by header name (exact match, as pandas column access). -/
def getCell (r : RawRow) (h : String) : Option String :=
  match r.find? (fun p => p.1 == h) with
  | some p => p.2
  | none => none

/-- A raw tabular dataset: the header names present, and the rows. -/
structure RawTable where
  headers : List String
  rows : List RawRow

/-- The `columns_to_load` list of src/Code.py lines 25-28, passed to
`pd.read_csv` as `usecols`. -/
def columns_to_load : List String :=
  ["Fecha Planificada", "Fecha cierre", "CCAA", "Nombre Centro",
   "Desc. Equipo", "Tipo Trabajo", "Desc. Estado", "Contratista"]

/-- The required columns absent from the raw table's headers. pandas
`usecols` matches header strings exactly (no case folding, no whitespace
stripping), and raises `ValueError` naming these when nonempty. -/
def requiredMissing (t : RawTable) : List String :=
  columns_to_load.filter (fun c => !(t.headers.contains c))

/-- Error raised inside the `try` block of `load_data`: the pandas
`ValueError` for `usecols` names not found among the file's headers; its
message lists the missing column names. -/
inductive LoadError where
  | missingColumns (missing : List String)
deriving DecidableEq, Repr

/-- One output record of `load_data` after renaming, date conversion, the
`dropna` filter, and derivation of `Año`, `Mes`, `Tipo_Trabajo_Agrupado`.
Field names follow the `rename` mapping of src/Code.py lines 49-56. -/
structure CanonRow where
  fecha_planificada : Option HDate
  fecha_cierre : Option HDate
  ccaa : Option String
  centro : Option String
  instalacion : Option String
  tipo_trabajo : Option String
  estado : Option String
  contratista : Option String
  ano : Option Nat
  mes : Option Nat
  tipo_trabajo_agrupado : String
deriving DecidableEq, Repr

/-- Transformation of one raw row: parse the planned date (rows whose planned
date fails to parse are dropped — the `dropna` on `Fecha_Planificada`),
coerce the close date, carry the text columns through, and derive year,
month and the grouped work type. -/
def mkCanonRow (r : RawRow) : Option CanonRow :=
  match (getCell r "Fecha Planificada").bind parseDate with
  | none => none
  | some d =>
    some { fecha_planificada := some d
           fecha_cierre := (getCell r "Fecha cierre").bind parseDate
           ccaa := getCell r "CCAA"
           centro := getCell r "Nombre Centro"
           instalacion := getCell r "Desc. Equipo"
           tipo_trabajo := getCell r "Tipo Trabajo"
           estado := getCell r "Desc. Estado"
           contratista := getCell r "Contratista"
           ano := some d.year
           mes := some d.month
           tipo_trabajo_agrupado := clean_tipo_trabajo (getCell r "Tipo Trabajo") }

/-- The body of the `try` block of `load_data` (src/Code.py lines 20-84):
the `read_csv` with `usecols` either fails with the missing-columns error
before any row is produced, or every row is cleaned, filtered and derived. -/
def process_data (t : RawTable) : Except LoadError (List CanonRow) :=
  if (requiredMissing t).isEmpty then
    Except.ok (t.rows.filterMap mkCanonRow)
  else
    Except.error (LoadError.missingColumns (requiredMissing t))

/-- Full `load_data` (src/Code.py lines 16-91) as seen by its caller. The
input is `none` when the file is missing (`FileNotFoundError`). Both
`except` arms display a UI error and return `pd.DataFrame()`, modelled as
the empty row list; no exception escapes. -/
def load_data (input : Option RawTable) : List CanonRow :=
  match input with
  | none => []
  | some t =>
    match process_data t with
    | Except.ok rows => rows
    | Except.error _ => []

/-- Modelled from the spec: `src/Code.py` loads no cost column at all, so the
spec's decimal cost parser (§4.1 Numeric Coercion) is modelled from the
spec's words; the spec's example parses `"150,5"` to `150.5`, so the decimal
separator is the comma. A malformed value yields `none`. -/
def parse_decimal (s : String) : Option Rat :=
  match splitOnChar ',' s.toList with
  | [a] =>
    if 1 ≤ a.length && a.all Char.isDigit then
      some ((digitsToNat a : Rat))
    else none
  | [a, b] =>
    if 1 ≤ a.length && 1 ≤ b.length && a.all Char.isDigit && b.all Char.isDigit then
      some ((digitsToNat a : Rat) + (digitsToNat b : Rat) / ((10 : Rat) ^ b.length))
    else none
  | _ => none

/-- Modelled from the spec: the Numeric Coercion step of §4.1, absent from
`src/Code.py`. The cost of one row, given the resolved cost header (`none`
when no cost column resolved): an absent column gives every row cost `0`,
and a missing or unparseable cell gives `0`; the coercion never fails. -/
def row_coste (costHeader : Option String) (r : RawRow) : Rat :=
  match costHeader with
  | none => 0
  | some h =>
    match (getCell r h).bind parse_decimal with
    | some q => q
    | none => 0

/-- Modelled from the spec: the normalizer extended with the `Coste` field of
the spec's CanonicalRow, which `src/Code.py` does not produce. Rows are built
exactly as `process_data` builds them, paired with the coerced cost. -/
def process_data_coste (costHeader : Option String) (t : RawTable) :
    Except LoadError (List (CanonRow × Rat)) :=
  if (requiredMissing t).isEmpty then
    Except.ok (t.rows.filterMap
      (fun r => (mkCanonRow r).map (fun c => (c, row_coste costHeader r))))
  else
    Except.error (LoadError.missingColumns (requiredMissing t))

/-- Range of the categorizer: `clean_tipo_trabajo` only ever produces one of
the five constants written in `src/Code.py`. -/
theorem clean_tipo_trabajo_mem (tipo : Option String) :
    clean_tipo_trabajo tipo ∈ ["Correctivo", "Preventivo", "Siniestro", "Inspeccion", "Otro"] := by
  simp only [clean_tipo_trabajo]
  split_ifs <;> simp

/-- Counting lemma for the date filter: the surviving rows plus the rows whose
planned date does not parse account for every input row. -/
theorem length_filterMap_mkCanonRow (rows : List RawRow) :
    (rows.filterMap mkCanonRow).length
      + rows.countP (fun r => ((getCell r "Fecha Planificada").bind parseDate).isNone)
      = rows.length := by
  induction rows with
  | nil => rfl
  | cons r rs ih =>
    cases h : (getCell r "Fecha Planificada").bind parseDate with
    | none =>
      have hmk : mkCanonRow r = none := by
        unfold mkCanonRow
        rw [h]
      simp [List.filterMap_cons, List.countP_cons, hmk, h]
      omega
    | some d =>
      have hmk : (mkCanonRow r).isSome = true := by
        unfold mkCanonRow
        rw [h]
        rfl
      rcases Option.isSome_iff_exists.mp hmk with ⟨c, hc⟩
      simp [List.filterMap_cons, List.countP_cons, hc, h]
      omega

/-- A successful `process_data` run returns exactly the filtered, transformed
rows. -/
theorem rows_of_process_ok (t : RawTable) (rows : List CanonRow)
    (h : process_data t = Except.ok rows) :
    rows = t.rows.filterMap mkCanonRow := by
  unfold process_data at h
  split at h
  · injection h with h2
    exact h2.symm
  · exact Except.noConfusion h

/-- A required column absent from the headers makes `process_data` fail with
the missing-columns error and makes `load_data` return the empty dataset. -/
theorem process_data_error_of_missing (t : RawTable) (c : String)
    (hc : c ∈ columns_to_load) (h : t.headers.contains c = false) :
    c ∈ requiredMissing t
    ∧ process_data t = Except.error (LoadError.missingColumns (requiredMissing t))
    ∧ load_data (some t) = [] := by
  have hmem : c ∈ requiredMissing t := by
    unfold requiredMissing
    rw [List.mem_filter]
    refine ⟨hc, ?_⟩
    rw [h]
    rfl
  have hne : (requiredMissing t).isEmpty = false := by
    cases hr : requiredMissing t with
    | nil => rw [hr] at hmem; cases hmem
    | cons a l => rfl
  have hp : process_data t = Except.error (LoadError.missingColumns (requiredMissing t)) := by
    unfold process_data
    rw [hne]
    rfl
  refine ⟨hmem, hp, ?_⟩
  simp only [load_data, hp]

/-- Claim C1 counterexample: the categorizer of `src/Code.py` has no "MOD"
rule — the value `"MOD"` (which contains none of the earlier substrings)
maps to `"Otro"`, not `"Modificativo"`; and a value matching no rule maps to
`"Otro"`, not the string `"Otros"`. -/
theorem mod_rule_counterexample :
    clean_tipo_trabajo (some "MOD") = "Otro"
    ∧ "Otro" ≠ "Modificativo"
    ∧ clean_tipo_trabajo (some "XYZ") = "Otro"
    ∧ "Otro" ≠ "Otros" :=
  ⟨by decide, by decide, by decide, by decide⟩

/-- Claim C1 (amended): the free-text work-type value is mapped by
case-insensitive substring match against the fixed ordered rule table of
`src/Code.py`: "COR" gives Correctivo, "PRV" gives Preventivo, "SIN" gives
Siniestro, "INS" gives Inspeccion, otherwise the value maps to exactly the
string "Otro"; there is no "MOD" rule. -/
theorem clean_tipo_trabajo_rule_table (tipo : Option String) :
    (strContains (tipo_upper tipo) "COR" = true →
        clean_tipo_trabajo tipo = "Correctivo")
    ∧ (strContains (tipo_upper tipo) "COR" = false →
        strContains (tipo_upper tipo) "PRV" = true →
        clean_tipo_trabajo tipo = "Preventivo")
    ∧ (strContains (tipo_upper tipo) "COR" = false →
        strContains (tipo_upper tipo) "PRV" = false →
        strContains (tipo_upper tipo) "SIN" = true →
        clean_tipo_trabajo tipo = "Siniestro")
    ∧ (strContains (tipo_upper tipo) "COR" = false →
        strContains (tipo_upper tipo) "PRV" = false →
        strContains (tipo_upper tipo) "SIN" = false →
        strContains (tipo_upper tipo) "INS" = true →
        clean_tipo_trabajo tipo = "Inspeccion")
    ∧ (strContains (tipo_upper tipo) "COR" = false →
        strContains (tipo_upper tipo) "PRV" = false →
        strContains (tipo_upper tipo) "SIN" = false →
        strContains (tipo_upper tipo) "INS" = false →
        clean_tipo_trabajo tipo = "Otro") := by
  refine ⟨?_, ?_, ?_, ?_, ?_⟩ <;> intros <;> simp_all [clean_tipo_trabajo]

/-- Claim C1 witness: the amended rule table evaluated at the concrete value
`"MOD123"`, which matches no rule and maps to `"Otro"`. -/
theorem clean_tipo_trabajo_rule_table_witness :
    clean_tipo_trabajo (some "MOD123") = "Otro" :=
  (clean_tipo_trabajo_rule_table (some "MOD123")).2.2.2.2
    (by decide) (by decide) (by decide) (by decide)

/-- Claim C5: rule priority — for every work-type value, whichever rule is
first in the fixed order COR, PRV, SIN, INS among those whose substring the
uppercased value contains determines the result, regardless of any later
matches: "COR" present gives Correctivo outright; "PRV" present without
"COR" gives Preventivo; "SIN" present without "COR" or "PRV" gives
Siniestro; "INS" present without the previous three gives Inspeccion; in
particular a value containing both "COR" and "SIN" yields Correctivo. -/
theorem rule_priority_first_match (s : String) :
    (strContains (tipo_upper (some s)) "COR" = true →
        clean_tipo_trabajo (some s) = "Correctivo")
    ∧ (strContains (tipo_upper (some s)) "COR" = false →
        strContains (tipo_upper (some s)) "PRV" = true →
        clean_tipo_trabajo (some s) = "Preventivo")
    ∧ (strContains (tipo_upper (some s)) "COR" = false →
        strContains (tipo_upper (some s)) "PRV" = false →
        strContains (tipo_upper (some s)) "SIN" = true →
        clean_tipo_trabajo (some s) = "Siniestro")
    ∧ (strContains (tipo_upper (some s)) "COR" = false →
        strContains (tipo_upper (some s)) "PRV" = false →
        strContains (tipo_upper (some s)) "SIN" = false →
        strContains (tipo_upper (some s)) "INS" = true →
        clean_tipo_trabajo (some s) = "Inspeccion")
    ∧ (strContains (tipo_upper (some s)) "COR" = true
        ∧ strContains (tipo_upper (some s)) "SIN" = true →
        clean_tipo_trabajo (some s) = "Correctivo") := by
  refine ⟨?_, ?_, ?_, ?_, ?_⟩ <;> intros <;> simp_all [clean_tipo_trabajo]

/-- Claim C5 witness: two concrete multi-match values — `"CORSIN"` contains
both "COR" and "SIN" and is mapped to Correctivo, and `"PRVSIN"` contains
both "PRV" and "SIN" (but not "COR") and is mapped to Preventivo. -/
theorem rule_priority_first_match_witness :
    clean_tipo_trabajo (some "CORSIN") = "Correctivo"
    ∧ clean_tipo_trabajo (some "PRVSIN") = "Preventivo" :=
  ⟨(rule_priority_first_match "CORSIN").2.2.2.2 ⟨by decide, by decide⟩,
   (rule_priority_first_match "PRVSIN").2.1 (by decide) (by decide)⟩

/-- Claim C9 counterexample: re-categorizing an already-derived value is not
the identity — `"PRV"` derives `"Preventivo"`, but re-categorizing
`"Preventivo"` yields `"Otro"` (its uppercase contains none of COR, PRV,
SIN, INS), so renormalization changes field values. -/
theorem renormalize_not_idempotent :
    clean_tipo_trabajo (some "PRV") = "Preventivo"
    ∧ clean_tipo_trabajo (some (clean_tipo_trabajo (some "PRV"))) = "Otro"
    ∧ "Otro" ≠ "Preventivo" :=
  ⟨by decide, by decide, by decide⟩

/-- Claim C9 (amended): re-categorizing a derived Categoria value leaves it
unchanged unless the derived value is `"Preventivo"`; the other four derived
constants are fixed points of the categorizer. -/
theorem recategorize_fixed_unless_preventivo (tipo : Option String)
    (h : clean_tipo_trabajo tipo ≠ "Preventivo") :
    clean_tipo_trabajo (some (clean_tipo_trabajo tipo)) = clean_tipo_trabajo tipo := by
  have hm := clean_tipo_trabajo_mem tipo
  simp only [List.mem_cons, List.not_mem_nil, or_false] at hm
  rcases hm with h1 | h2 | h3 | h4 | h5
  · rw [h1]; decide
  · exact absurd h2 h
  · rw [h3]; decide
  · rw [h4]; decide
  · rw [h5]; decide

/-- Claim C9 witness: re-categorizing the value derived from `"XCORX"`
(namely `"Correctivo"`) leaves it unchanged. -/
theorem recategorize_fixed_unless_preventivo_witness :
    clean_tipo_trabajo (some (clean_tipo_trabajo (some "XCORX")))
      = clean_tipo_trabajo (some "XCORX") :=
  recategorize_fixed_unless_preventivo (some "XCORX") (by decide)

/-- Raw table with no date header at all (and some data), used for claim C2. -/
def tC2 : RawTable :=
  ⟨["CCAA", "Tipo Trabajo"], [[("CCAA", some "Madrid"), ("Tipo Trabajo", some "COR")]]⟩

/-- Raw table with every required header and no rows: a successful load whose
output is empty, used for claim C2. -/
def tC2ok : RawTable := ⟨columns_to_load, []⟩

/-- Claim C2 counterexample: on a dataset with no date header the inner read
does fail, but the failure is not surfaced to the caller as a SchemaError —
`load_data` catches it and returns the empty dataset, which is exactly what
a successful load of an empty dataset returns, so the caller cannot observe
the failure. -/
theorem schema_error_not_surfaced :
    process_data tC2 = Except.error (LoadError.missingColumns
      ["Fecha Planificada", "Fecha cierre", "Nombre Centro",
       "Desc. Equipo", "Desc. Estado", "Contratista"])
    ∧ process_data tC2ok = Except.ok []
    ∧ load_data (some tC2) = load_data (some tC2ok) :=
  ⟨rfl, rfl, rfl⟩

/-- Claim C2 (amended): for every raw dataset whose headers do not include
the exact name "Fecha Planificada", the inner read fails with the
missing-columns error naming that field, no partial sequence of canonical
rows is produced, and the caller of `load_data` receives the empty dataset
(the error is reported to the UI, not surfaced as a value to the caller). -/
theorem missing_date_column_aborts_empty (t : RawTable)
    (h : t.headers.contains "Fecha Planificada" = false) :
    "Fecha Planificada" ∈ requiredMissing t
    ∧ process_data t = Except.error (LoadError.missingColumns (requiredMissing t))
    ∧ load_data (some t) = [] :=
  process_data_error_of_missing t "Fecha Planificada" (by decide) h

/-- Claim C2 witness: the amended statement evaluated at the concrete
dataset `tC2`, whose headers lack the date field. -/
theorem missing_date_column_aborts_empty_witness :
    "Fecha Planificada" ∈ requiredMissing tC2
    ∧ process_data tC2 = Except.error (LoadError.missingColumns (requiredMissing tC2))
    ∧ load_data (some tC2) = [] :=
  missing_date_column_aborts_empty tC2 (by decide)

/-- Raw table whose headers are all required columns except "Tipo Trabajo",
with one row carrying a valid date, used for claim C7. -/
def tC7 : RawTable :=
  ⟨["Fecha Planificada", "Fecha cierre", "CCAA", "Nombre Centro",
    "Desc. Equipo", "Desc. Estado", "Contratista"],
   [[("Fecha Planificada", some "05/03/2024")]]⟩

/-- Claim C7 counterexample: with the work-type column entirely absent the
load does not succeed with a fallback category — the read fails on the
missing required column and `load_data` returns the empty dataset, so no
output row (with any Categoria) exists. -/
theorem missing_tipo_column_counterexample :
    process_data tC7 = Except.error (LoadError.missingColumns ["Tipo Trabajo"])
    ∧ load_data (some tC7) = [] :=
  ⟨rfl, rfl⟩

/-- Claim C7 (amended): for every input dataset whose headers lack the exact
name "Tipo Trabajo" the read fails and the load returns the empty dataset —
no fallback category constant exists in `src/Code.py`; a missing work-type
cell value (as opposed to a missing column) is categorized `"Otro"` via
`str(nan)`, indistinguishable from the no-match fallback. -/
theorem missing_tipo_column_behavior (t : RawTable)
    (h : t.headers.contains "Tipo Trabajo" = false) :
    "Tipo Trabajo" ∈ requiredMissing t
    ∧ process_data t = Except.error (LoadError.missingColumns (requiredMissing t))
    ∧ load_data (some t) = []
    ∧ clean_tipo_trabajo none = "Otro" := by
  have hp := process_data_error_of_missing t "Tipo Trabajo" (by decide) h
  exact ⟨hp.1, hp.2.1, hp.2.2, by decide⟩

/-- Claim C7 witness: the amended statement evaluated at the concrete
dataset `tC7`, which has no work-type column. -/
theorem missing_tipo_column_behavior_witness :
    "Tipo Trabajo" ∈ requiredMissing tC7
    ∧ process_data tC7 = Except.error (LoadError.missingColumns (requiredMissing tC7))
    ∧ load_data (some tC7) = []
    ∧ clean_tipo_trabajo none = "Otro" :=
  missing_tipo_column_behavior tC7 (by decide)

/-- Raw table whose date header differs from the required name only in
casing ("FECHA PLANIFICADA"), all other headers exact, used for claim C8. -/
def tC8 : RawTable :=
  ⟨["FECHA PLANIFICADA", "Fecha cierre", "CCAA", "Nombre Centro",
    "Desc. Equipo", "Tipo Trabajo", "Desc. Estado", "Contratista"],
   [[("FECHA PLANIFICADA", some "05/03/2024"), ("Tipo Trabajo", some "COR")]]⟩

/-- Claim C8 counterexample: a header differing from the required name only
in casing does not resolve — the read fails on the exact-match lookup and
the load returns the empty dataset, instead of resolving case-insensitively
as the claim states. -/
theorem case_sensitive_header_counterexample :
    process_data tC8 = Except.error (LoadError.missingColumns ["Fecha Planificada"])
    ∧ load_data (some tC8) = [] :=
  ⟨rfl, rfl⟩

/-- Claim C8 (amended): header resolution in `src/Code.py` is exact string
match (pandas `usecols`): whenever any required column name is not literally
among the headers — no matter what case or whitespace variants of it are —
the read fails with the missing-columns error and the load returns the empty
dataset; the post-read strip of column names never gets to compensate. -/
theorem header_match_exact (t : RawTable) (c : String)
    (hc : c ∈ columns_to_load) (h : t.headers.contains c = false) :
    c ∈ requiredMissing t
    ∧ process_data t = Except.error (LoadError.missingColumns (requiredMissing t))
    ∧ load_data (some t) = [] :=
  process_data_error_of_missing t c hc h

/-- Claim C8 witness: the amended statement evaluated at the concrete
dataset `tC8`, whose date header differs only in casing. -/
theorem header_match_exact_witness :
    "Fecha Planificada" ∈ requiredMissing tC8
    ∧ process_data tC8 = Except.error (LoadError.missingColumns (requiredMissing tC8))
    ∧ load_data (some tC8) = [] :=
  header_match_exact tC8 "Fecha Planificada" (by decide) (by decide)

/-- Claim C3: for every dataset the load accepts, any row whose planned date
fails to parse day-first is dropped (not an error for the whole load), and
the surviving row count equals the input count minus the unparseable-date
rows. -/
theorem unparseable_date_rows_dropped (t : RawTable) (rows : List CanonRow)
    (h : process_data t = Except.ok rows) :
    rows.length
        = t.rows.length
          - t.rows.countP (fun r => ((getCell r "Fecha Planificada").bind parseDate).isNone)
    ∧ ∀ r ∈ t.rows,
        ((getCell r "Fecha Planificada").bind parseDate).isNone = true →
        mkCanonRow r = none := by
  have hrows := rows_of_process_ok t rows h
  subst hrows
  constructor
  · have hlen := length_filterMap_mkCanonRow t.rows
    omega
  · intro r hr hnone
    rw [Option.isNone_iff_eq_none] at hnone
    unfold mkCanonRow
    rw [hnone]

/-- Raw table with one parseable-date row and one row whose date "31/13/2024"
is not a valid day-first date, used for claim C3. -/
def tC3 : RawTable :=
  ⟨columns_to_load,
   [[("Fecha Planificada", some "05/03/2024"), ("Tipo Trabajo", some "PRV")],
    [("Fecha Planificada", some "31/13/2024"), ("Tipo Trabajo", some "COR")]]⟩

/-- Claim C3 witness: the surviving-count equation evaluated at the concrete
dataset `tC3` (two rows in, one unparseable date, one row out). -/
theorem unparseable_date_rows_dropped_witness :
    ((process_data tC3).toOption.getD []).length
      = tC3.rows.length
        - tC3.rows.countP (fun r => ((getCell r "Fecha Planificada").bind parseDate).isNone) :=
  (unparseable_date_rows_dropped tC3 ((process_data tC3).toOption.getD []) rfl).1

/-- Raw table with one surviving row whose work type "ZZZ" matches no rule,
used for claim C4. -/
def tC4 : RawTable :=
  ⟨columns_to_load,
   [[("Fecha Planificada", some "05/03/2024"), ("Tipo Trabajo", some "ZZZ")]]⟩

/-- Claim C4 counterexample: the surviving row derived from work type "ZZZ"
carries Categoria `"Otro"`, which is not a member of the enumeration
`Correctivo | Preventivo | Modificativo | Inspeccion | Siniestro | Otros`
stated by the claim. -/
theorem categoria_otros_counterexample :
    process_data tC4 = Except.ok
      [{ fecha_planificada := some ⟨2024, 3, 5⟩, fecha_cierre := none, ccaa := none,
         centro := none, instalacion := none, tipo_trabajo := some "ZZZ", estado := none,
         contratista := none, ano := some 2024, mes := some 3,
         tipo_trabajo_agrupado := "Otro" }]
    ∧ "Otro" ∉ ["Correctivo", "Preventivo", "Modificativo", "Inspeccion", "Siniestro", "Otros"] :=
  ⟨rfl, by decide⟩

/-- Claim C4 (amended): every row of the normalizer's output has a non-null
Fecha (planned date) and a non-null Categoria drawn from the enumeration the
code actually produces: `Correctivo | Preventivo | Siniestro | Inspeccion |
Otro` (the fallback is spelled "Otro", and Modificativo is never produced). -/
theorem output_row_invariant (t : RawTable) (rows : List CanonRow)
    (h : process_data t = Except.ok rows) :
    ∀ c ∈ rows,
      c.fecha_planificada.isSome = true
      ∧ c.tipo_trabajo_agrupado ∈ ["Correctivo", "Preventivo", "Siniestro", "Inspeccion", "Otro"] := by
  have hrows := rows_of_process_ok t rows h
  subst hrows
  intro c hc
  rcases List.mem_filterMap.mp hc with ⟨r, hr, hmk⟩
  cases hx : (getCell r "Fecha Planificada").bind parseDate with
  | none =>
    unfold mkCanonRow at hmk
    rw [hx] at hmk
    cases hmk
  | some d =>
    unfold mkCanonRow at hmk
    rw [hx] at hmk
    injection hmk with hmk
    subst hmk
    exact ⟨rfl, clean_tipo_trabajo_mem _⟩

/-- The single canonical row produced from `tC4`, used by the claim C4
witness. -/
def cC4 : CanonRow :=
  { fecha_planificada := some ⟨2024, 3, 5⟩, fecha_cierre := none, ccaa := none,
    centro := none, instalacion := none, tipo_trabajo := some "ZZZ", estado := none,
    contratista := none, ano := some 2024, mes := some 3,
    tipo_trabajo_agrupado := "Otro" }

/-- Claim C4 witness: the amended invariant evaluated at the concrete output
row of `tC4`. -/
theorem output_row_invariant_witness :
    cC4.fecha_planificada.isSome = true
    ∧ cC4.tipo_trabajo_agrupado ∈ ["Correctivo", "Preventivo", "Siniestro", "Inspeccion", "Otro"] :=
  output_row_invariant tC4 [cC4] rfl cC4 (by decide)

/-- Claim C6: with no cost column resolved, every output row's Coste is
exactly 0; a cost value that does not parse as a decimal yields 0; and cost
handling never changes whether the load succeeds. Spec-modelled: no cost
column exists in `src/Code.py`, so the coercion follows the spec's words. -/
theorem coste_defaults_to_zero (t : RawTable) (rows : List (CanonRow × Rat))
    (h : process_data_coste none t = Except.ok rows) :
    (∀ p ∈ rows, p.2 = 0)
    ∧ (∀ ch r, (getCell r ch).bind parse_decimal = none → row_coste (some ch) r = 0)
    ∧ (∀ ch, (process_data_coste (some ch) t).toOption.isSome
          = (process_data_coste none t).toOption.isSome) := by
  refine ⟨?_, ?_, ?_⟩
  · have hrows : rows = t.rows.filterMap
        (fun r => (mkCanonRow r).map (fun c => (c, row_coste none r))) := by
      unfold process_data_coste at h
      split at h
      · injection h with h2
        exact h2.symm
      · exact Except.noConfusion h
    subst hrows
    intro p hp
    rcases List.mem_filterMap.mp hp with ⟨r, hr, hmk⟩
    cases hx : mkCanonRow r with
    | none =>
      rw [hx] at hmk
      cases hmk
    | some c =>
      rw [hx] at hmk
      simp only [Option.map_some'] at hmk
      injection hmk with hmk
      subst hmk
      rfl
  · intro ch r hnone
    simp [row_coste, hnone]
  · intro ch
    cases he : (requiredMissing t).isEmpty
    · unfold process_data_coste
      simp [he]
    · unfold process_data_coste
      simp only [he]
      rfl

/-- Raw row whose cost cell "abc" is not a decimal number, used for claim
C6. -/
def rC6 : RawRow :=
  [("Fecha Planificada", some "05/03/2024"), ("Coste", some "abc")]

/-- Raw table wrapping `rC6` with all required headers, used for claim C6. -/
def tC6 : RawTable := ⟨columns_to_load, [rC6]⟩

/-- Claim C6 witness: the unparseable cost cell of `rC6` coerces to 0. -/
theorem coste_defaults_to_zero_witness :
    row_coste (some "Coste") rC6 = 0 :=
  (coste_defaults_to_zero tC6 ((process_data_coste none tC6).toOption.getD []) rfl).2.1
    "Coste" rC6 rfl

/-- Claim C10: `load_data` never propagates a failure to its caller — for
every input (including a missing file, modelled by `none`) the caller
observes either the fully normalized dataset of a successful run or the
empty dataset, nothing else. -/
theorem load_data_total_empty_on_error (input : Option RawTable) :
    load_data input = []
    ∨ ∃ t rows, input = some t ∧ process_data t = Except.ok rows ∧ load_data input = rows := by
  cases input with
  | none => exact Or.inl rfl
  | some t =>
    cases hp : process_data t with
    | ok rows =>
      exact Or.inr ⟨t, rows, rfl, hp, by simp [load_data, hp]⟩
    | error e =>
      exact Or.inl (by simp [load_data, hp])
